import Mathlib

/-!
Verification development for the ResumeForge server (Express + Firestore).

The route handlers of `server/index.js` are shallowly embedded as pure Lean
functions over an explicit database state.  Firestore collections are
modelled as association lists keyed by document / share token id; timestamps
are natural numbers (milliseconds); a Firestore `Timestamp` field that may be
absent or malformed is modelled by `Option ExpiryVal`.
-/

deriving instance DecidableEq for Except

namespace ResumeForge

/-- Error outcomes of the HTTP handlers, by status code:
404 notFound, 410 gone, 403 forbidden, 429 rateLimited,
400 invalidInput, 500 internal. -/
inductive ApiError where
  | notFound
  | gone
  | forbidden
  | rateLimited
  | invalidInput
  | internal
deriving DecidableEq, Repr

/-- The value stored in a share's `expiresAt` field: either a proper
Firestore `Timestamp` (which has a `toDate` conversion), or some other
truthy value lacking `toDate`.  A missing field is `Option.none` at the
use sites. -/
inductive ExpiryVal where
  | ts (t : Nat)
  | raw
deriving DecidableEq, Repr

/-- The visibility configuration stored on a share record. -/
structure ShareConfig where
  resumeMarkdown : Bool
  coverLetterMarkdown : Bool
  notes : Bool
deriving DecidableEq, Repr

/-- A record of the `shares` collection, keyed by its token. -/
structure Share where
  documentId : String
  createdBy : String
  config : ShareConfig
  isEditable : Bool
  createdAt : Nat
  updatedAt : Option Nat
  expiresAt : Option ExpiryVal
deriving DecidableEq, Repr

/-- A record of the `documents` collection. -/
structure Document where
  userId : String
  companyName : String
  positionName : String
  resumeMarkdown : String
  coverLetterMarkdown : String
  status : String
  notes : String
  updatedAt : Nat
deriving DecidableEq, Repr

/-- The Firestore state: the two collections used by the routes. -/
structure DB where
  documents : List (String × Document)
  shares : List (String × Share)
deriving DecidableEq, Repr

/-- `collection.doc(key).get()`: first binding of `key`, if any. -/
def getEntry {α : Type} : List (String × α) → String → Option α
  | [], _ => none
  | (k, v) :: rest, key => if k = key then some v else getEntry rest key

/-- `collection.doc(key).set/update(value)`: replace the first binding of
`key`, or append a fresh binding when the key is absent. -/
def setEntry {α : Type} : List (String × α) → String → α → List (String × α)
  | [], key, v => [(key, v)]
  | (k, w) :: rest, key, v =>
      if k = key then (key, v) :: rest else (k, w) :: setEntry rest key v

/-- `collection.doc(key).delete()`: drop the first binding of `key`. -/
def removeEntry {α : Type} : List (String × α) → String → List (String × α)
  | [], _ => []
  | (k, w) :: rest, key => if k = key then rest else (k, w) :: removeEntry rest key

/-- The visibility-filtered view returned by ResolveShare; gated content
fields are `Option`s (absent = not included in the JSON response). -/
structure SharedView where
  companyName : String
  positionName : String
  isEditable : Bool
  resumeMarkdown : Option String
  coverLetterMarkdown : Option String
  notes : Option String
deriving DecidableEq, Repr

/-- The request body of the public share edit; `Option.none` models an
`undefined` (absent) field. -/
structure SharedUpdateBody where
  resumeMarkdown : Option String
  coverLetterMarkdown : Option String
  notes : Option String
deriving DecidableEq, Repr

/-- The request body; each flag is a boolean or absent (`undefined`/`null`,
both modelled as `Option.none`; the handler's `isBool` validation accepts
exactly these, and `!!` coerces an absent flag to `false`). -/
structure ShareRequestBody where
  resumeMarkdown : Option Bool
  coverLetterMarkdown : Option Bool
  notes : Option Bool
  isEditable : Option Bool
deriving DecidableEq, Repr

/-- The success payload of the share upsert. -/
structure ShareResponse where
  shareUrl : String
  message : String
  expiresAt : Nat
deriving DecidableEq, Repr

/-- The whitelisted body of the full update `PUT /api/documents/:id`. -/
structure DocumentUpdateBody where
  companyName : String
  positionName : String
  resumeMarkdown : String
  coverLetterMarkdown : String
  status : String
  notes : String
deriving DecidableEq, Repr

/-- The side effects of the PDF route, in invocation order: the Markdown
formatter (`md.render`) and the renderer (`wkhtmltopdf`). -/
inductive PdfEffect where
  | formatMarkdown (markdown : String)
  | render (html : String)
deriving DecidableEq, Repr

structure PdfRequestBody where
  markdownContent : Option String
  filename : Option String
deriving DecidableEq, Repr

/-! ## Concrete fixtures used by witnesses and counterexamples -/

/-- Expiry test of the GET path (guards on `toDate` being present). -/
def shareExpiredOnGet (expiresAt : Option ExpiryVal) (now : Nat) : Bool :=
  match expiresAt with
  | some (.ts t) => t < now
  | some .raw => false
  | none => false

def fetchSharedDocumentData (db : DB) (now : Nat) (shareToken : String) :
    Except ApiError SharedView :=
  match getEntry db.shares shareToken with
  | none => .error .notFound
  | some shareData =>
    if shareExpiredOnGet shareData.expiresAt now then .error .gone
    else
      match getEntry db.documents shareData.documentId with
      | none => .error .notFound
      | some documentData =>
        .ok { companyName := documentData.companyName
              positionName := documentData.positionName
              isEditable := shareData.isEditable
              resumeMarkdown :=
                if shareData.config.resumeMarkdown then some documentData.resumeMarkdown
                else none
              coverLetterMarkdown :=
                if shareData.config.coverLetterMarkdown then some documentData.coverLetterMarkdown
                else none
              notes :=
                if shareData.config.notes then some documentData.notes
                else none }

/-- Expiry evaluation of the PUT path: `.ok b` when the guard evaluates to
`b`, `.error .internal` when evaluating `toDate()` throws. -/
def shareExpiryOnPut (expiresAt : Option ExpiryVal) (now : Nat) :
    Except ApiError Bool :=
  match expiresAt with
  | some (.ts t) => .ok (decide (t < now))
  | some .raw => .error .internal
  | none => .ok false

/-- Build the `updatableData` object: the update timestamp always, and each
content field only when the share's configuration flags it visible AND the
body supplies it (`!== undefined`). -/
def applySharedUpdate (config : ShareConfig) (body : SharedUpdateBody)
    (now : Nat) (d : Document) : Document :=
  let d1 :=
    match config.resumeMarkdown, body.resumeMarkdown with
    | true, some v => { d with resumeMarkdown := v }
    | _, _ => d
  let d2 :=
    match config.coverLetterMarkdown, body.coverLetterMarkdown with
    | true, some v => { d1 with coverLetterMarkdown := v }
    | _, _ => d1
  let d3 :=
    match config.notes, body.notes with
    | true, some v => { d2 with notes := v }
    | _, _ => d2
  { d3 with updatedAt := now }

/-- The handler; returns the HTTP outcome paired with the resulting
database state (unchanged on every error path).  The final
`docRef.update` throws (500) when the referenced document is gone. -/
def updateSharedDocument (db : DB) (now : Nat) (shareToken : String)
    (body : SharedUpdateBody) : Except ApiError Unit × DB :=
  match getEntry db.shares shareToken with
  | none => (.error .notFound, db)
  | some shareData =>
    if shareData.isEditable then
      match shareExpiryOnPut shareData.expiresAt now with
      | .error e => (.error e, db)
      | .ok true => (.error .gone, db)
      | .ok false =>
        match getEntry db.documents shareData.documentId with
        | none => (.error .internal, db)
        | some d =>
          (.ok (), { db with
            documents := setEntry db.documents shareData.documentId
              (applySharedUpdate shareData.config body now d) })
    else (.error .forbidden, db)

def thirtyDaysMs : Nat := 30 * 24 * 60 * 60 * 1000

def oneHourMs : Nat := 60 * 60 * 1000

/-- The `limit(1)` query for an existing share of this document by this
user: first matching record. -/
def findExistingShare (shares : List (String × Share)) (docId uid : String) :
    Option (String × Share) :=
  shares.find? (fun p => p.2.documentId == docId && p.2.createdBy == uid)

/-- The rate-limit count query: shares created by `uid` with
`createdAt >= now - 1h`. -/
def recentShareCount (shares : List (String × Share)) (uid : String)
    (now : Nat) : Nat :=
  (shares.filter (fun p => p.2.createdBy == uid && decide (now - oneHourMs ≤ p.2.createdAt))).length

/-- The upsert handler.  `newToken` stands for the value of
`crypto.randomBytes(32).toString(hex)` drawn on the create path. -/
def createOrUpdateShare (db : DB) (now : Nat) (uid documentId : String)
    (body : ShareRequestBody) (newToken : String) :
    Except ApiError ShareResponse × DB :=
  match getEntry db.documents documentId with
  | none => (.error .notFound, db)
  | some doc =>
    if doc.userId = uid then
      let newConfig : ShareConfig :=
        { resumeMarkdown := body.resumeMarkdown.getD false
          coverLetterMarkdown := body.coverLetterMarkdown.getD false
          notes := body.notes.getD false }
      match findExistingShare db.shares documentId uid with
      | some (tok, s) =>
        let newExpiresAt := now + thirtyDaysMs
        let s' : Share :=
          { s with config := newConfig
                   updatedAt := some now
                   expiresAt := some (.ts newExpiresAt)
                   isEditable := body.isEditable.getD false }
        (.ok { shareUrl := "/documents/share/" ++ tok
               message := "Share link updated."
               expiresAt := newExpiresAt },
         { db with shares := setEntry db.shares tok s' })
      | none =>
        if 10 ≤ recentShareCount db.shares uid now then
          (.error .rateLimited, db)
        else
          let newExpiresAt := now + thirtyDaysMs
          let s : Share :=
            { documentId := documentId
              createdBy := uid
              config := newConfig
              isEditable := body.isEditable.getD false
              createdAt := now
              updatedAt := none
              expiresAt := some (.ts newExpiresAt) }
          (.ok { shareUrl := "/documents/share/" ++ newToken
                 message := "Share link created."
                 expiresAt := newExpiresAt },
           { db with shares := setEntry db.shares newToken s })
    else (.error .forbidden, db)

/-- `GET /api/documents/:id`. -/
def getDocumentById (db : DB) (uid docId : String) : Except ApiError Document :=
  match getEntry db.documents docId with
  | none => .error .notFound
  | some d => if d.userId = uid then .ok d else .error .forbidden

/-- `PUT /api/documents/:id`. -/
def updateDocument (db : DB) (now : Nat) (uid docId : String)
    (body : DocumentUpdateBody) : Except ApiError Unit × DB :=
  match getEntry db.documents docId with
  | none => (.error .notFound, db)
  | some d =>
    if d.userId = uid then
      let d' : Document :=
        { d with companyName := body.companyName
                 positionName := body.positionName
                 resumeMarkdown := body.resumeMarkdown
                 coverLetterMarkdown := body.coverLetterMarkdown
                 status := body.status
                 notes := body.notes
                 updatedAt := now }
      (.ok (), { db with documents := setEntry db.documents docId d' })
    else (.error .forbidden, db)

def allowedStatuses : List String :=
  ["Draft", "Applied", "Interviewing", "Offer", "Rejected"]

/-- `PUT /api/documents/:id/status`; the status whitelist is checked before
the existence and ownership checks. -/
def updateDocumentStatus (db : DB) (uid docId status : String) :
    Except ApiError Unit × DB :=
  if allowedStatuses.contains status then
    match getEntry db.documents docId with
    | none => (.error .notFound, db)
    | some d =>
      if d.userId = uid then
        (.ok (), { db with documents := setEntry db.documents docId { d with status := status } })
      else (.error .forbidden, db)
  else (.error .invalidInput, db)

/-- `DELETE /api/documents/:id`. -/
def deleteDocument (db : DB) (uid docId : String) : Except ApiError Unit × DB :=
  match getEntry db.documents docId with
  | none => (.error .notFound, db)
  | some d =>
    if d.userId = uid then
      (.ok (), { db with documents := removeEntry db.documents docId })
    else (.error .forbidden, db)

/-- `GET /api/documents/:documentId/shares`. -/
def listShares (db : DB) (uid docId : String) :
    Except ApiError (List (String × Share)) :=
  match getEntry db.documents docId with
  | none => .error .notFound
  | some d =>
    if d.userId = uid then
      .ok (db.shares.filter (fun p => p.2.documentId == docId && p.2.createdBy == uid))
    else .error .forbidden

/-- The fixed HTML template around the formatted content. -/
def composeFullHtml (pdfStyles htmlContent : String) : String :=
  "<!DOCTYPE html><html><head><meta charset=\"utf-8\"><style>" ++ pdfStyles ++
    "</style></head><body><div class=\"resume-preview\">" ++ htmlContent ++
    "</div></body></html>"

/-- `filename || 'document.pdf'` (empty string is falsy). -/
def pdfFilename (filename : Option String) : String :=
  match filename with
  | some f => if f = "" then "document.pdf" else f
  | none => "document.pdf"

/-- The handler: `.ok` carries the attachment filename; the effect trace
records what was invoked.  `mdRender` abstracts the deterministic
Markdown-to-HTML formatter, `pdfStyles` the contents of
`pdf-styles.css`. -/
def generatePdf (mdRender : String → String) (pdfStyles : String)
    (body : PdfRequestBody) : Except ApiError String × List PdfEffect :=
  match body.markdownContent with
  | none => (.error .invalidInput, [])
  | some content =>
    if content = "" then (.error .invalidInput, [])
    else
      let htmlContent := mdRender content
      let fullHtml := composeFullHtml pdfStyles htmlContent
      (.ok (pdfFilename body.filename),
       [.formatMarkdown content, .render fullHtml])

def w1Doc : Document :=
  { userId := "alice", companyName := "Acme", positionName := "Engineer"
    resumeMarkdown := "R", coverLetterMarkdown := "C", status := "Draft"
    notes := "N", updatedAt := 0 }

def w1Share : Share :=
  { documentId := "d1", createdBy := "alice"
    config := { resumeMarkdown := true, coverLetterMarkdown := false, notes := false }
    isEditable := false, createdAt := 0, updatedAt := none
    expiresAt := some (.ts 100) }

def w1DB : DB := { documents := [("d1", w1Doc)], shares := [("t1", w1Share)] }

def w2Share : Share :=
  { documentId := "d1", createdBy := "alice"
    config := { resumeMarkdown := true, coverLetterMarkdown := false, notes := false }
    isEditable := true, createdAt := 0, updatedAt := none
    expiresAt := some (.ts 100) }

def w2DB : DB := { documents := [("d1", w1Doc)], shares := [("t2", w2Share)] }

def w2Body : SharedUpdateBody :=
  { resumeMarkdown := some "R2", coverLetterMarkdown := none, notes := some "N2" }

def w3Body : SharedUpdateBody :=
  { resumeMarkdown := some "x", coverLetterMarkdown := none, notes := none }

def c5Share : Share :=
  { documentId := "d1", createdBy := "alice"
    config := { resumeMarkdown := true, coverLetterMarkdown := true, notes := true }
    isEditable := false, createdAt := 0, updatedAt := none
    expiresAt := some (.ts 10) }

def c5DB : DB := { documents := [("d1", w1Doc)], shares := [("t5", c5Share)] }

def c5bShare : Share :=
  { documentId := "d1", createdBy := "alice"
    config := { resumeMarkdown := true, coverLetterMarkdown := true, notes := true }
    isEditable := true, createdAt := 0, updatedAt := none
    expiresAt := some (.ts 10) }

def c5bDB : DB := { documents := [("d1", w1Doc)], shares := [("t5b", c5bShare)] }

def c10Share : Share :=
  { documentId := "d1", createdBy := "alice"
    config := { resumeMarkdown := true, coverLetterMarkdown := true, notes := true }
    isEditable := true, createdAt := 0, updatedAt := none
    expiresAt := some .raw }

def c10DB : DB := { documents := [("d1", w1Doc)], shares := [("t10", c10Share)] }

def c10View : SharedView :=
  { companyName := "Acme", positionName := "Engineer", isEditable := true
    resumeMarkdown := some "R", coverLetterMarkdown := some "C", notes := some "N" }

def c10nShare : Share :=
  { documentId := "d1", createdBy := "alice"
    config := { resumeMarkdown := true, coverLetterMarkdown := true, notes := true }
    isEditable := true, createdAt := 0, updatedAt := none
    expiresAt := none }

def c10nDB : DB := { documents := [("d1", w1Doc)], shares := [("t10n", c10nShare)] }

def w6Doc : Document :=
  { userId := "alice", companyName := "Acme", positionName := "Engineer"
    resumeMarkdown := "R", coverLetterMarkdown := "C", status := "Draft"
    notes := "N", updatedAt := 0 }

def w6DB : DB := { documents := [("d6", w6Doc)], shares := [] }

def w6Body : ShareRequestBody :=
  { resumeMarkdown := some true, coverLetterMarkdown := some false
    notes := none, isEditable := some true }

/-- The record written on the create path (abbreviation for statements). -/
def freshShare (docId uid : String) (body : ShareRequestBody) (now : Nat) :
    Share :=
  { documentId := docId, createdBy := uid
    config := { resumeMarkdown := body.resumeMarkdown.getD false
                coverLetterMarkdown := body.coverLetterMarkdown.getD false
                notes := body.notes.getD false }
    isEditable := body.isEditable.getD false
    createdAt := now, updatedAt := none
    expiresAt := some (.ts (now + thirtyDaysMs)) }

/-- The overwrite applied on the update path (abbreviation for statements). -/
def updatedShare (s : Share) (body : ShareRequestBody) (now : Nat) : Share :=
  { s with config := { resumeMarkdown := body.resumeMarkdown.getD false
                       coverLetterMarkdown := body.coverLetterMarkdown.getD false
                       notes := body.notes.getD false }
           updatedAt := some now
           expiresAt := some (.ts (now + thirtyDaysMs))
           isEditable := body.isEditable.getD false }

def c7Doc : Document :=
  { userId := "alice", companyName := "Acme", positionName := "Engineer"
    resumeMarkdown := "R", coverLetterMarkdown := "C", status := "Draft"
    notes := "N", updatedAt := 0 }

/-- Ten shares created by alice for another document within the last hour. -/
def c7OldShare (tokn : String) : String × Share :=
  (tokn, { documentId := "other", createdBy := "alice"
           config := { resumeMarkdown := true, coverLetterMarkdown := false
                       notes := false }
           isEditable := false, createdAt := 1000, updatedAt := none
           expiresAt := some (.ts 999999) })

def c7DB : DB :=
  { documents := [("d7", c7Doc)]
    shares := [c7OldShare "s0", c7OldShare "s1", c7OldShare "s2", c7OldShare "s3",
               c7OldShare "s4", c7OldShare "s5", c7OldShare "s6", c7OldShare "s7",
               c7OldShare "s8", c7OldShare "s9"] }

def c7Body : ShareRequestBody :=
  { resumeMarkdown := some true, coverLetterMarkdown := none, notes := none
    isEditable := none }

def w7Share : Share :=
  { documentId := "d7", createdBy := "alice"
    config := { resumeMarkdown := false, coverLetterMarkdown := false
                notes := true }
    isEditable := false, createdAt := 42, updatedAt := none
    expiresAt := some (.ts 777) }

def w7DB : DB := { documents := [("d7", c7Doc)], shares := [("t7", w7Share)] }

def c8Doc : Document :=
  { userId := "alice", companyName := "Acme", positionName := "Engineer"
    resumeMarkdown := "R", coverLetterMarkdown := "C", status := "Draft"
    notes := "N", updatedAt := 0 }

def c8DB : DB := { documents := [("d8", c8Doc)], shares := [] }

def w8Body : DocumentUpdateBody :=
  { companyName := "B", positionName := "P", resumeMarkdown := "r"
    coverLetterMarkdown := "c", status := "Applied", notes := "n" }

def w9Body : PdfRequestBody :=
  { markdownContent := some "# Title\n\nBody", filename := none }

theorem getEntry_setEntry_self {α : Type} (l : List (String × α)) (k : String) (v : α) :
    getEntry (setEntry l k v) k = some v := by
  induction l with
  | nil => simp [setEntry, getEntry]
  | cons hd tl ih =>
      obtain ⟨k1, w⟩ := hd
      by_cases h : k1 = k
      · simp [setEntry, getEntry, h]
      · simp [setEntry, getEntry, h, ih]

theorem getEntry_setEntry_ne {α : Type} (l : List (String × α)) (k k' : String) (v : α)
    (h : k' ≠ k) : getEntry (setEntry l k v) k' = getEntry l k' := by
  have h2 : ¬ k = k' := Ne.symm h
  induction l with
  | nil => simp [setEntry, getEntry, h2]
  | cons hd tl ih =>
      obtain ⟨k1, w⟩ := hd
      by_cases h1 : k1 = k
      · subst h1
        simp [setEntry, getEntry, h2]
      · simp only [setEntry, if_neg h1, getEntry]
        by_cases h3 : k1 = k'
        · simp [h3]
        · simp [h3, ih]

theorem setEntry_of_getEntry_none {α : Type} (l : List (String × α)) (k : String) (v : α)
    (h : getEntry l k = none) : setEntry l k v = l ++ [(k, v)] := by
  induction l with
  | nil => simp [setEntry]
  | cons hd tl ih =>
      obtain ⟨k1, w⟩ := hd
      by_cases h1 : k1 = k
      · simp [getEntry, h1] at h
      · simp only [getEntry, if_neg h1] at h
        simp [setEntry, h1, ih h]

theorem length_setEntry_of_mem {α : Type} (l : List (String × α)) (k : String)
    (s v : α) (h : (k, s) ∈ l) : (setEntry l k v).length = l.length := by
  induction l with
  | nil => simp at h
  | cons hd tl ih =>
      obtain ⟨k1, w⟩ := hd
      by_cases h1 : k1 = k
      · simp [setEntry, h1]
      · rcases List.mem_cons.mp h with h2 | h2
        · exact absurd (congrArg Prod.fst h2).symm h1
        · simp [setEntry, h1, ih h2]

/-! ## ResolveShare: `GET /api/documents/share/:shareToken`

`fetchSharedDocumentData` embeds the helper of the same name.  Its expiry
guard is `shareData.expiresAt && shareData.expiresAt.toDate &&
shareData.expiresAt.toDate() < new Date()`: a missing field or a value
without `toDate` short-circuits to "not expired". -/

/-! ## UpdateSharedDocument: `PUT /api/documents/share/:shareToken`

Order of checks in the handler: share existence (404), then the
editability check (403), then the expiry check (410).  The expiry guard of
this path is `shareData.expiresAt && shareData.expiresAt.toDate() <
new Date()`: unlike the GET path it calls `toDate()` without first testing
for its presence, so a truthy `expiresAt` lacking `toDate` throws a
`TypeError` caught by the surrounding handler (500). -/

/-! ## CreateOrUpdateShare: `POST /api/documents/:documentId/share` -/

/-! ## Owner-gated document routes -/

/-! ## PDF generation: `POST /api/generate-pdf` -/

/-! ## Claim theorems -/

/-- Claim C1: for every share and every document it references, ResolveShare
returns a view containing a content field (resumeMarkdown,
coverLetterMarkdown, notes) if and only if that field's visibility flag in
the share's config is true — for all combinations of the three flags — while
companyName, positionName and the isEditable flag are always included. -/
theorem C1_resolveShare_visibility (db : DB) (now : Nat) (tok : String)
    (s : Share) (d : Document)
    (hs : getEntry db.shares tok = some s)
    (hexp : shareExpiredOnGet s.expiresAt now = false)
    (hd : getEntry db.documents s.documentId = some d) :
    ∃ view, fetchSharedDocumentData db now tok = .ok view ∧
      view.companyName = d.companyName ∧
      view.positionName = d.positionName ∧
      view.isEditable = s.isEditable ∧
      (view.resumeMarkdown.isSome ↔ s.config.resumeMarkdown = true) ∧
      (view.coverLetterMarkdown.isSome ↔ s.config.coverLetterMarkdown = true) ∧
      (view.notes.isSome ↔ s.config.notes = true) ∧
      (∀ v, view.resumeMarkdown = some v → v = d.resumeMarkdown) ∧
      (∀ v, view.coverLetterMarkdown = some v → v = d.coverLetterMarkdown) ∧
      (∀ v, view.notes = some v → v = d.notes) := by
  have hres : fetchSharedDocumentData db now tok = .ok
      { companyName := d.companyName
        positionName := d.positionName
        isEditable := s.isEditable
        resumeMarkdown :=
          if s.config.resumeMarkdown then some d.resumeMarkdown else none
        coverLetterMarkdown :=
          if s.config.coverLetterMarkdown then some d.coverLetterMarkdown else none
        notes := if s.config.notes then some d.notes else none } := by
    unfold fetchSharedDocumentData
    rw [hs]
    simp only [hexp, Bool.false_eq_true, if_false]
    rw [hd]
  refine ⟨_, hres, rfl, rfl, rfl, ?_, ?_, ?_, ?_, ?_, ?_⟩
  all_goals
    cases h1 : s.config.resumeMarkdown <;> cases h2 : s.config.coverLetterMarkdown <;>
      cases h3 : s.config.notes <;> simp [h1, h2, h3]

theorem C1_resolveShare_visibility_witness :
    ∃ view, fetchSharedDocumentData w1DB 50 "t1" = .ok view ∧
      view.companyName = w1Doc.companyName ∧
      view.positionName = w1Doc.positionName ∧
      view.isEditable = w1Share.isEditable ∧
      (view.resumeMarkdown.isSome ↔ w1Share.config.resumeMarkdown = true) ∧
      (view.coverLetterMarkdown.isSome ↔ w1Share.config.coverLetterMarkdown = true) ∧
      (view.notes.isSome ↔ w1Share.config.notes = true) ∧
      (∀ v, view.resumeMarkdown = some v → v = w1Doc.resumeMarkdown) ∧
      (∀ v, view.coverLetterMarkdown = some v → v = w1Doc.coverLetterMarkdown) ∧
      (∀ v, view.notes = some v → v = w1Doc.notes) :=
  C1_resolveShare_visibility w1DB 50 "t1" w1Share w1Doc (by decide) (by decide)
    (by decide)

theorem applySharedUpdate_resume (c : ShareConfig) (b : SharedUpdateBody)
    (now : Nat) (d : Document) :
    (applySharedUpdate c b now d).resumeMarkdown =
      match c.resumeMarkdown, b.resumeMarkdown with
      | true, some v => v
      | _, _ => d.resumeMarkdown := by
  obtain ⟨cr, cc, cn⟩ := c
  obtain ⟨br, bc, bn⟩ := b
  cases cr <;> cases cc <;> cases cn <;> cases br <;> cases bc <;> cases bn <;>
    rfl

theorem applySharedUpdate_cover (c : ShareConfig) (b : SharedUpdateBody)
    (now : Nat) (d : Document) :
    (applySharedUpdate c b now d).coverLetterMarkdown =
      match c.coverLetterMarkdown, b.coverLetterMarkdown with
      | true, some v => v
      | _, _ => d.coverLetterMarkdown := by
  obtain ⟨cr, cc, cn⟩ := c
  obtain ⟨br, bc, bn⟩ := b
  cases cr <;> cases cc <;> cases cn <;> cases br <;> cases bc <;> cases bn <;>
    rfl

theorem applySharedUpdate_notes (c : ShareConfig) (b : SharedUpdateBody)
    (now : Nat) (d : Document) :
    (applySharedUpdate c b now d).notes =
      match c.notes, b.notes with
      | true, some v => v
      | _, _ => d.notes := by
  obtain ⟨cr, cc, cn⟩ := c
  obtain ⟨br, bc, bn⟩ := b
  cases cr <;> cases cc <;> cases cn <;> cases br <;> cases bc <;> cases bn <;>
    rfl

theorem applySharedUpdate_frame (c : ShareConfig) (b : SharedUpdateBody)
    (now : Nat) (d : Document) :
    (applySharedUpdate c b now d).updatedAt = now ∧
    (applySharedUpdate c b now d).userId = d.userId ∧
    (applySharedUpdate c b now d).companyName = d.companyName ∧
    (applySharedUpdate c b now d).positionName = d.positionName ∧
    (applySharedUpdate c b now d).status = d.status := by
  obtain ⟨cr, cc, cn⟩ := c
  obtain ⟨br, bc, bn⟩ := b
  cases cr <;> cases cc <;> cases cn <;> cases br <;> cases bc <;> cases bn <;>
    exact ⟨rfl, rfl, rfl, rfl, rfl⟩

/-- Claim C2: for every editable, non-expired share and every request body,
a content field is written to the underlying document iff it is supplied
(not undefined) in the body and its visibility flag in the share's config is
true; a supplied field whose flag is false leaves the stored field unchanged
and the request still succeeds; the document's update timestamp is set. -/
theorem C2_update_share_field_gating (db : DB) (now : Nat) (tok : String)
    (body : SharedUpdateBody) (s : Share) (d : Document)
    (hs : getEntry db.shares tok = some s)
    (hed : s.isEditable = true)
    (hexp : shareExpiryOnPut s.expiresAt now = .ok false)
    (hd : getEntry db.documents s.documentId = some d) :
    ∃ db', updateSharedDocument db now tok body = (.ok (), db') ∧
      ∃ d', getEntry db'.documents s.documentId = some d' ∧
        (∀ v, body.resumeMarkdown = some v → s.config.resumeMarkdown = true →
            d'.resumeMarkdown = v) ∧
        ((body.resumeMarkdown = none ∨ s.config.resumeMarkdown = false) →
            d'.resumeMarkdown = d.resumeMarkdown) ∧
        (∀ v, body.coverLetterMarkdown = some v →
            s.config.coverLetterMarkdown = true → d'.coverLetterMarkdown = v) ∧
        ((body.coverLetterMarkdown = none ∨ s.config.coverLetterMarkdown = false) →
            d'.coverLetterMarkdown = d.coverLetterMarkdown) ∧
        (∀ v, body.notes = some v → s.config.notes = true → d'.notes = v) ∧
        ((body.notes = none ∨ s.config.notes = false) → d'.notes = d.notes) ∧
        d'.updatedAt = now ∧
        d'.userId = d.userId ∧
        d'.companyName = d.companyName ∧
        d'.positionName = d.positionName ∧
        d'.status = d.status := by
  have hres : updateSharedDocument db now tok body = (.ok (), { db with
      documents := setEntry db.documents s.documentId
        (applySharedUpdate s.config body now d) }) := by
    unfold updateSharedDocument
    rw [hs]
    simp only [hed, if_true, hexp]
    rw [hd]
  refine ⟨_, hres, applySharedUpdate s.config body now d,
    getEntry_setEntry_self _ _ _, ?_, ?_, ?_, ?_, ?_, ?_,
    (applySharedUpdate_frame s.config body now d).1,
    (applySharedUpdate_frame s.config body now d).2.1,
    (applySharedUpdate_frame s.config body now d).2.2.1,
    (applySharedUpdate_frame s.config body now d).2.2.2.1,
    (applySharedUpdate_frame s.config body now d).2.2.2.2⟩
  · intro v hv hflag
    rw [applySharedUpdate_resume, hflag, hv]
  · rintro (hv | hflag)
    · rw [applySharedUpdate_resume, hv]
      cases s.config.resumeMarkdown <;> rfl
    · rw [applySharedUpdate_resume, hflag]
  · intro v hv hflag
    rw [applySharedUpdate_cover, hflag, hv]
  · rintro (hv | hflag)
    · rw [applySharedUpdate_cover, hv]
      cases s.config.coverLetterMarkdown <;> rfl
    · rw [applySharedUpdate_cover, hflag]
  · intro v hv hflag
    rw [applySharedUpdate_notes, hflag, hv]
  · rintro (hv | hflag)
    · rw [applySharedUpdate_notes, hv]
      cases s.config.notes <;> rfl
    · rw [applySharedUpdate_notes, hflag]

theorem C2_update_share_field_gating_witness :
    ∃ db', updateSharedDocument w2DB 50 "t2" w2Body = (.ok (), db') ∧
      ∃ d', getEntry db'.documents w2Share.documentId = some d' ∧
        (∀ v, w2Body.resumeMarkdown = some v →
            w2Share.config.resumeMarkdown = true → d'.resumeMarkdown = v) ∧
        ((w2Body.resumeMarkdown = none ∨ w2Share.config.resumeMarkdown = false) →
            d'.resumeMarkdown = w1Doc.resumeMarkdown) ∧
        (∀ v, w2Body.coverLetterMarkdown = some v →
            w2Share.config.coverLetterMarkdown = true →
            d'.coverLetterMarkdown = v) ∧
        ((w2Body.coverLetterMarkdown = none ∨
            w2Share.config.coverLetterMarkdown = false) →
            d'.coverLetterMarkdown = w1Doc.coverLetterMarkdown) ∧
        (∀ v, w2Body.notes = some v → w2Share.config.notes = true →
            d'.notes = v) ∧
        ((w2Body.notes = none ∨ w2Share.config.notes = false) →
            d'.notes = w1Doc.notes) ∧
        d'.updatedAt = 50 ∧
        d'.userId = w1Doc.userId ∧
        d'.companyName = w1Doc.companyName ∧
        d'.positionName = w1Doc.positionName ∧
        d'.status = w1Doc.status :=
  C2_update_share_field_gating w2DB 50 "t2" w2Body w2Share w1Doc (by decide)
    (by decide) (by decide) (by decide)

/-- Claim C3: for every share whose isEditable flag is false, every call to
UpdateSharedDocument fails Forbidden (403) and performs no write: the
database is exactly as it was before the call. -/
theorem C3_update_nonEditable_forbidden (db : DB) (now : Nat) (tok : String)
    (body : SharedUpdateBody) (s : Share)
    (hs : getEntry db.shares tok = some s)
    (hed : s.isEditable = false) :
    updateSharedDocument db now tok body = (.error .forbidden, db) := by
  unfold updateSharedDocument
  rw [hs]
  simp [hed]

theorem C3_update_nonEditable_forbidden_witness :
    updateSharedDocument w1DB 50 "t1" w3Body = (.error .forbidden, w1DB) :=
  C3_update_nonEditable_forbidden w1DB 50 "t1" w3Body w1Share (by decide)
    (by decide)

/-- Claim C4: for every share whose expiresAt timestamp is in the past,
ResolveShare fails Gone (410) and returns no content payload, regardless of
the visibility configuration; the check runs on every resolution. -/
theorem C4_resolveShare_expired_gone (db : DB) (now t : Nat) (tok : String)
    (s : Share)
    (hs : getEntry db.shares tok = some s)
    (hexp : s.expiresAt = some (.ts t))
    (ht : t < now) :
    fetchSharedDocumentData db now tok = .error .gone := by
  unfold fetchSharedDocumentData
  rw [hs]
  simp [shareExpiredOnGet, hexp, ht]

theorem C4_resolveShare_expired_gone_witness :
    fetchSharedDocumentData w1DB 200 "t1" = .error .gone :=
  C4_resolveShare_expired_gone w1DB 200 100 "t1" w1Share (by decide) (by decide)
    (by decide)

/-! ### Claim C5 — corrected

The handler checks `isEditable` (403) before `expiresAt` (410), so an
expired share whose isEditable flag is false fails Forbidden, not Gone. -/

/-- Claim C5, counterexample: the share at token t5 is expired
(expiresAt = 10 < now = 100), yet because its isEditable flag is false the
call fails Forbidden — the claim predicts Gone regardless of the editable
flag. -/
theorem C5_counterexample :
    c5Share.expiresAt = some (.ts 10) ∧
    updateSharedDocument c5DB 100 "t5" w3Body = (.error .forbidden, c5DB) ∧
    (updateSharedDocument c5DB 100 "t5" w3Body).1 ≠ .error .gone := by
  decide

/-- Claim C5 as amended: UpdateSharedDocument fails NotFound if the token is
absent; for a present share the Forbidden check on the isEditable flag runs
FIRST — so a non-editable share always fails Forbidden, even when expired —
and only then is the expiry check applied, so an expired EDITABLE share
fails Gone; each of these failures leaves the database unchanged, hence the
Forbidden check precedes any mutation. -/
theorem C5_update_share_check_order (db : DB) (now : Nat) (tok : String)
    (body : SharedUpdateBody) :
    (getEntry db.shares tok = none →
        updateSharedDocument db now tok body = (.error .notFound, db)) ∧
    (∀ s, getEntry db.shares tok = some s → s.isEditable = false →
        updateSharedDocument db now tok body = (.error .forbidden, db)) ∧
    (∀ s t, getEntry db.shares tok = some s → s.isEditable = true →
        s.expiresAt = some (.ts t) → t < now →
        updateSharedDocument db now tok body = (.error .gone, db)) := by
  refine ⟨?_, ?_, ?_⟩
  · intro hnone
    unfold updateSharedDocument
    rw [hnone]
  · intro s hs hed
    unfold updateSharedDocument
    rw [hs]
    simp [hed]
  · intro s t hs hed hexp ht
    unfold updateSharedDocument
    rw [hs]
    simp [hed, shareExpiryOnPut, hexp, ht]

theorem C5_update_share_check_order_witness :
    updateSharedDocument c5bDB 100 "t5b" w3Body = (.error .gone, c5bDB) :=
  (C5_update_share_check_order c5bDB 100 "t5b" w3Body).2.2 c5bShare 10
    (by decide) (by decide) (by decide) (by decide)

/-! ### Claim C10 — corrected

A share record lacking `expiresAt` is indeed never treated as expired on
either path.  But for a truthy `expiresAt` without a `toDate` conversion the
two paths differ: the GET guard tests `expiresAt.toDate` before calling it
and serves the share, while the PUT guard calls `expiresAt.toDate()`
directly and throws, so the edit fails with 500 instead of proceeding. -/

/-- Claim C10, counterexample: the share at token t10 has an expiresAt value
without a toDate conversion.  ResolveShare does serve it, but
UpdateSharedDocument fails Internal (500) and leaves the database unchanged
— the claim predicts that the share's content can be edited indefinitely. -/
theorem C10_counterexample :
    c10Share.expiresAt = some .raw ∧
    c10Share.isEditable = true ∧
    fetchSharedDocumentData c10DB 5 "t10" = .ok c10View ∧
    updateSharedDocument c10DB 5 "t10" w3Body = (.error .internal, c10DB) := by
  decide

/-- Claim C10 as amended: a share lacking an expiresAt field is never
treated as expired — both ResolveShare and UpdateSharedDocument skip the
Gone check for it at every instant, and ResolveShare serves its content
whenever the referenced document exists; a share whose expiresAt has no
toDate conversion is likewise never Gone on either path and is served
indefinitely by ResolveShare, but UpdateSharedDocument fails Internal (500)
on it without writing, instead of editing. -/
theorem C10_missing_expiry_never_gone (db : DB) (now : Nat) (tok : String)
    (body : SharedUpdateBody) (s : Share)
    (hs : getEntry db.shares tok = some s) :
    ((s.expiresAt = none ∨ s.expiresAt = some .raw) →
        fetchSharedDocumentData db now tok ≠ .error .gone) ∧
    ((s.expiresAt = none ∨ s.expiresAt = some .raw) →
        ∀ d, getEntry db.documents s.documentId = some d →
          ∃ view, fetchSharedDocumentData db now tok = .ok view) ∧
    (s.expiresAt = none →
        (updateSharedDocument db now tok body).1 ≠ .error .gone) ∧
    (s.expiresAt = some .raw → s.isEditable = true →
        updateSharedDocument db now tok body = (.error .internal, db)) := by
  have hnexp : ∀ (h : s.expiresAt = none ∨ s.expiresAt = some .raw),
      shareExpiredOnGet s.expiresAt now = false := by
    rintro (h | h) <;> simp [shareExpiredOnGet, h]
  refine ⟨?_, ?_, ?_, ?_⟩
  · intro h
    unfold fetchSharedDocumentData
    rw [hs]
    simp only [hnexp h, Bool.false_eq_true, if_false]
    cases getEntry db.documents s.documentId <;> simp
  · intro h d hd
    unfold fetchSharedDocumentData
    rw [hs]
    simp only [hnexp h, Bool.false_eq_true, if_false]
    rw [hd]
    exact ⟨_, rfl⟩
  · intro h
    unfold updateSharedDocument
    rw [hs]
    cases hed : s.isEditable
    · simp [hed]
    · cases hd : getEntry db.documents s.documentId <;>
        simp [hed, shareExpiryOnPut, h, hd]
  · intro h hed
    unfold updateSharedDocument
    rw [hs]
    simp [hed, shareExpiryOnPut, h]

theorem C10_missing_expiry_never_gone_witness :
    ((c10nShare.expiresAt = none ∨ c10nShare.expiresAt = some .raw) →
        fetchSharedDocumentData c10nDB 999999 "t10n" ≠ .error .gone) ∧
    (c10nShare.expiresAt = none →
        (updateSharedDocument c10nDB 999999 "t10n" w3Body).1 ≠ .error .gone) :=
  ⟨(C10_missing_expiry_never_gone c10nDB 999999 "t10n" w3Body c10nShare
      (by decide)).1,
   (C10_missing_expiry_never_gone c10nDB 999999 "t10n" w3Body c10nShare
      (by decide)).2.2.1⟩

/-! ### Claim C6 — rate limit on the create path -/

theorem recentShareCount_append_hit (l : List (String × Share))
    (tokn uid : String) (s : Share) (now : Nat)
    (hcb : s.createdBy = uid) (hca : now - oneHourMs ≤ s.createdAt) :
    recentShareCount (l ++ [(tokn, s)]) uid now =
      recentShareCount l uid now + 1 := by
  have hca2 : now ≤ s.createdAt + oneHourMs := Nat.sub_le_iff_le_add.mp hca
  unfold recentShareCount
  rw [List.filter_append]
  simp [hcb, hca2]

/-- Claim C6: on the create path of CreateOrUpdateShare (document exists,
requester owns it, no existing share for this document and requester): with
10 or more shares created by the requester in the last 60 minutes the call
fails RateLimited (429) and creates nothing; with fewer than 10 it succeeds
and creates the share record, raising the requester's in-window count by
one — so starting from fewer than 10 the 1st through 10th creations succeed
and the 11th fails; a call that finds an existing share (the update path)
succeeds without consulting the count at all. -/
theorem C6_create_share_rate_limit (db : DB) (now : Nat) (uid docId : String)
    (body : ShareRequestBody) (newToken : String) (d : Document)
    (hd : getEntry db.documents docId = some d)
    (hown : d.userId = uid)
    (hfresh : getEntry db.shares newToken = none) :
    (findExistingShare db.shares docId uid = none →
      (10 ≤ recentShareCount db.shares uid now →
        createOrUpdateShare db now uid docId body newToken =
          (.error .rateLimited, db)) ∧
      (recentShareCount db.shares uid now < 10 →
        ∃ db', createOrUpdateShare db now uid docId body newToken =
            (.ok { shareUrl := "/documents/share/" ++ newToken
                   message := "Share link created."
                   expiresAt := now + thirtyDaysMs }, db') ∧
          getEntry db'.shares newToken = some
            { documentId := docId, createdBy := uid
              config := { resumeMarkdown := body.resumeMarkdown.getD false
                          coverLetterMarkdown := body.coverLetterMarkdown.getD false
                          notes := body.notes.getD false }
              isEditable := body.isEditable.getD false
              createdAt := now, updatedAt := none
              expiresAt := some (.ts (now + thirtyDaysMs)) } ∧
          recentShareCount db'.shares uid now =
            recentShareCount db.shares uid now + 1)) ∧
    (∀ tok s, findExistingShare db.shares docId uid = some (tok, s) →
      ∃ resp db', createOrUpdateShare db now uid docId body newToken =
        (.ok resp, db')) := by
  constructor
  · intro hnone
    constructor
    · intro h10
      unfold createOrUpdateShare
      rw [hd]
      simp [hown, hnone, h10]
    · intro hlt
      have hnle : ¬ 10 ≤ recentShareCount db.shares uid now :=
        Nat.not_le.mpr hlt
      have hres : createOrUpdateShare db now uid docId body newToken =
          (.ok { shareUrl := "/documents/share/" ++ newToken
                 message := "Share link created."
                 expiresAt := now + thirtyDaysMs },
           { db with shares := (setEntry db.shares newToken
               ⟨docId, uid,
                ⟨body.resumeMarkdown.getD false, body.coverLetterMarkdown.getD false,
                 body.notes.getD false⟩,
                body.isEditable.getD false, now, none,
                some (.ts (now + thirtyDaysMs))⟩) }) := by
        unfold createOrUpdateShare
        rw [hd]
        simp [hown, hnone, hnle]
      refine ⟨_, hres, getEntry_setEntry_self _ _ _, ?_⟩
      show recentShareCount (setEntry db.shares newToken _) uid now = _
      rw [setEntry_of_getEntry_none _ _ _ hfresh]
      exact recentShareCount_append_hit db.shares newToken uid _ now rfl
        (Nat.sub_le now oneHourMs)
  · intro tok s hsome
    unfold createOrUpdateShare
    rw [hd]
    simp only [hown, hsome, if_true, eq_self_iff_true]
    exact ⟨_, _, rfl⟩

theorem C6_create_share_rate_limit_witness :
    ∃ db', createOrUpdateShare w6DB 100 "alice" "d6" w6Body "n6" =
        (.ok { shareUrl := "/documents/share/" ++ "n6"
               message := "Share link created."
               expiresAt := 100 + thirtyDaysMs }, db') ∧
      getEntry db'.shares "n6" = some
        { documentId := "d6", createdBy := "alice"
          config := { resumeMarkdown := w6Body.resumeMarkdown.getD false
                      coverLetterMarkdown := w6Body.coverLetterMarkdown.getD false
                      notes := w6Body.notes.getD false }
          isEditable := w6Body.isEditable.getD false
          createdAt := 100, updatedAt := none
          expiresAt := some (.ts (100 + thirtyDaysMs)) } ∧
      recentShareCount db'.shares "alice" 100 =
        recentShareCount w6DB.shares "alice" 100 + 1 :=
  ((C6_create_share_rate_limit w6DB 100 "alice" "d6" w6Body "n6" w6Doc
      (by decide) (by decide) (by decide)).1 (by decide)).2 (by decide)

/-! ### Claim C7 — upsert semantics of CreateOrUpdateShare -/

theorem findExistingShare_append_of_none (l : List (String × Share))
    (x : String × Share) (docId uid : String)
    (h : findExistingShare l docId uid = none) :
    findExistingShare (l ++ [x]) docId uid =
      if x.2.documentId == docId && x.2.createdBy == uid then some x
      else none := by
  unfold findExistingShare at h ⊢
  induction l with
  | nil =>
      simp only [List.nil_append]
      cases hx : (x.2.documentId == docId && x.2.createdBy == uid) <;>
        simp [List.find?, hx]
  | cons a tl ih =>
      cases ha : (a.2.documentId == docId && a.2.createdBy == uid) with
      | true =>
          simp only [List.find?, ha] at h
          cases h
      | false =>
          simp only [List.cons_append, List.find?, ha] at h ⊢
          exact ih h

/-- Claim C7, counterexample: alice owns document d7 and has no existing
share for it, yet — because she created ten shares for another document in
the last hour — the call fails RateLimited and no record is created, where
the claim states unconditionally that when no share exists for the pair a
new record is created. -/
theorem C7_counterexample :
    findExistingShare c7DB.shares "d7" "alice" = none ∧
    createOrUpdateShare c7DB 1500 "alice" "d7" c7Body "n7" =
      (.error .rateLimited, c7DB) ∧
    getEntry c7DB.shares "n7" = none := by
  decide

/-- Claim C7 as amended: CreateOrUpdateShare is an upsert per (documentId,
requester).  If a share record for the pair exists, the call overwrites its
visibility config and isEditable flag and resets its expiry to now+30 days,
keeping its token, document, creator and creation time, creating no new
record (the share count is unchanged) and touching no other share; if none
exists AND the requester is under the creation rate limit, a new record is
created (appended) with expiry now+30 days, and it is the record a second
call for the pair finds — so calling twice yields a single share record with
the latest configuration. -/
theorem C7_share_upsert (db : DB) (now : Nat) (uid docId : String)
    (body : ShareRequestBody) (newToken : String) (d : Document)
    (hd : getEntry db.documents docId = some d)
    (hown : d.userId = uid) :
    (∀ tok s, findExistingShare db.shares docId uid = some (tok, s) →
      ∃ db', createOrUpdateShare db now uid docId body newToken =
          (.ok { shareUrl := "/documents/share/" ++ tok
                 message := "Share link updated."
                 expiresAt := now + thirtyDaysMs }, db') ∧
        db'.documents = db.documents ∧
        db'.shares.length = db.shares.length ∧
        getEntry db'.shares tok = some (updatedShare s body now) ∧
        (updatedShare s body now).documentId = s.documentId ∧
        (updatedShare s body now).createdBy = s.createdBy ∧
        (updatedShare s body now).createdAt = s.createdAt ∧
        (updatedShare s body now).expiresAt = some (.ts (now + thirtyDaysMs)) ∧
        (∀ tok2, tok2 ≠ tok →
            getEntry db'.shares tok2 = getEntry db.shares tok2)) ∧
    (findExistingShare db.shares docId uid = none →
      getEntry db.shares newToken = none →
      recentShareCount db.shares uid now < 10 →
      ∃ db', createOrUpdateShare db now uid docId body newToken =
          (.ok { shareUrl := "/documents/share/" ++ newToken
                 message := "Share link created."
                 expiresAt := now + thirtyDaysMs }, db') ∧
        db'.documents = db.documents ∧
        db'.shares = db.shares ++ [(newToken, freshShare docId uid body now)] ∧
        (freshShare docId uid body now).expiresAt =
          some (.ts (now + thirtyDaysMs)) ∧
        findExistingShare db'.shares docId uid =
          some (newToken, freshShare docId uid body now)) := by
  constructor
  · intro tok s hsome
    have hres : createOrUpdateShare db now uid docId body newToken =
        (.ok { shareUrl := "/documents/share/" ++ tok
               message := "Share link updated."
               expiresAt := now + thirtyDaysMs },
         { db with shares := (setEntry db.shares tok (updatedShare s body now)) }) := by
      unfold createOrUpdateShare
      rw [hd]
      simp [hown, hsome, updatedShare]
    have hmem : (tok, s) ∈ db.shares := List.mem_of_find?_eq_some hsome
    refine ⟨_, hres, rfl, length_setEntry_of_mem _ _ _ _ hmem,
      getEntry_setEntry_self _ _ _, rfl, rfl, rfl, rfl, ?_⟩
    intro tok2 hne
    exact getEntry_setEntry_ne _ _ _ _ hne
  · intro hnone hfresh hlt
    have hnle : ¬ 10 ≤ recentShareCount db.shares uid now := Nat.not_le.mpr hlt
    have hres : createOrUpdateShare db now uid docId body newToken =
        (.ok { shareUrl := "/documents/share/" ++ newToken
               message := "Share link created."
               expiresAt := now + thirtyDaysMs },
         { db with shares := (setEntry db.shares newToken
             (freshShare docId uid body now)) }) := by
      unfold createOrUpdateShare
      rw [hd]
      simp [hown, hnone, hnle, freshShare]
    rw [setEntry_of_getEntry_none _ _ _ hfresh] at hres
    refine ⟨_, hres, rfl, rfl, rfl, ?_⟩
    show findExistingShare (db.shares ++ [(newToken, freshShare docId uid body now)])
        docId uid = _
    rw [findExistingShare_append_of_none _ _ _ _ hnone]
    simp [freshShare]

theorem C7_share_upsert_witness :
    ∃ db', createOrUpdateShare w7DB 1500 "alice" "d7" c7Body "n7" =
        (.ok { shareUrl := "/documents/share/" ++ "t7"
               message := "Share link updated."
               expiresAt := 1500 + thirtyDaysMs }, db') ∧
      db'.documents = w7DB.documents ∧
      db'.shares.length = w7DB.shares.length ∧
      getEntry db'.shares "t7" = some (updatedShare w7Share c7Body 1500) ∧
      (updatedShare w7Share c7Body 1500).documentId = w7Share.documentId ∧
      (updatedShare w7Share c7Body 1500).createdBy = w7Share.createdBy ∧
      (updatedShare w7Share c7Body 1500).createdAt = w7Share.createdAt ∧
      (updatedShare w7Share c7Body 1500).expiresAt =
        some (.ts (1500 + thirtyDaysMs)) ∧
      (∀ tok2, tok2 ≠ "t7" →
          getEntry db'.shares tok2 = getEntry w7DB.shares tok2) :=
  (C7_share_upsert w7DB 1500 "alice" "d7" c7Body "n7" c7Doc (by decide)
      (by decide)).1 "t7" w7Share (by decide)

/-! ### Claim C8 — ownership gating of document operations -/

/-- Claim C8, counterexample: mallory is not the owner of document d8, yet
a status update with an invalid status value fails InvalidInput (400), not
Forbidden (403) — the status whitelist is checked before the existence and
ownership checks, so not every operation on D by a non-owner yields
Forbidden. -/
theorem C8_counterexample :
    c8Doc.userId ≠ "mallory" ∧
    updateDocumentStatus c8DB "mallory" "d8" "Bogus" =
      (.error .invalidInput, c8DB) ∧
    (updateDocumentStatus c8DB "mallory" "d8" "Bogus").1 ≠
      .error .forbidden := by
  decide

/-- Claim C8 as amended: for every document D and authenticated user U whose
uid differs from D's stored userId, every owner-gated operation on D —
fetch one, full update, status update (with a status passing the whitelist
validation), delete, share create, share list — fails Forbidden (403)
without mutating the database; when the document is absent each of these
operations instead fails NotFound, so the ownership check runs after the
existence check and before any write; requests failing input validation
(an invalid status value) are rejected InvalidInput before either check,
also without mutating. -/
theorem C8_owner_gate (db : DB) (now : Nat) (uid docId status : String)
    (ubody : DocumentUpdateBody) (sbody : ShareRequestBody)
    (newToken : String) (d : Document)
    (hd : getEntry db.documents docId = some d)
    (hne : d.userId ≠ uid)
    (hstatus : allowedStatuses.contains status = true) :
    getDocumentById db uid docId = .error .forbidden ∧
    updateDocument db now uid docId ubody = (.error .forbidden, db) ∧
    updateDocumentStatus db uid docId status = (.error .forbidden, db) ∧
    deleteDocument db uid docId = (.error .forbidden, db) ∧
    createOrUpdateShare db now uid docId sbody newToken =
      (.error .forbidden, db) ∧
    listShares db uid docId = .error .forbidden ∧
    (∀ docId2, getEntry db.documents docId2 = none →
      getDocumentById db uid docId2 = .error .notFound ∧
      updateDocument db now uid docId2 ubody = (.error .notFound, db) ∧
      updateDocumentStatus db uid docId2 status = (.error .notFound, db) ∧
      deleteDocument db uid docId2 = (.error .notFound, db) ∧
      createOrUpdateShare db now uid docId2 sbody newToken =
        (.error .notFound, db) ∧
      listShares db uid docId2 = .error .notFound) := by
  refine ⟨?_, ?_, ?_, ?_, ?_, ?_, ?_⟩
  · unfold getDocumentById
    rw [hd]
    simp [hne]
  · unfold updateDocument
    rw [hd]
    simp [hne]
  · unfold updateDocumentStatus
    rw [hstatus]
    simp only [if_true]
    rw [hd]
    simp [hne]
  · unfold deleteDocument
    rw [hd]
    simp [hne]
  · unfold createOrUpdateShare
    rw [hd]
    simp [hne]
  · unfold listShares
    rw [hd]
    simp [hne]
  · intro docId2 hnone
    refine ⟨?_, ?_, ?_, ?_, ?_, ?_⟩
    · unfold getDocumentById
      rw [hnone]
    · unfold updateDocument
      rw [hnone]
    · unfold updateDocumentStatus
      rw [hstatus]
      simp only [if_true]
      rw [hnone]
    · unfold deleteDocument
      rw [hnone]
    · unfold createOrUpdateShare
      rw [hnone]
    · unfold listShares
      rw [hnone]

theorem C8_owner_gate_witness :
    getDocumentById c8DB "mallory" "d8" = .error .forbidden ∧
    updateDocument c8DB 9 "mallory" "d8" w8Body = (.error .forbidden, c8DB) ∧
    updateDocumentStatus c8DB "mallory" "d8" "Draft" =
      (.error .forbidden, c8DB) ∧
    deleteDocument c8DB "mallory" "d8" = (.error .forbidden, c8DB) ∧
    createOrUpdateShare c8DB 9 "mallory" "d8" w6Body "n8" =
      (.error .forbidden, c8DB) ∧
    listShares c8DB "mallory" "d8" = .error .forbidden ∧
    (∀ docId2, getEntry c8DB.documents docId2 = none →
      getDocumentById c8DB "mallory" docId2 = .error .notFound ∧
      updateDocument c8DB 9 "mallory" docId2 w8Body = (.error .notFound, c8DB) ∧
      updateDocumentStatus c8DB "mallory" docId2 "Draft" =
        (.error .notFound, c8DB) ∧
      deleteDocument c8DB "mallory" docId2 = (.error .notFound, c8DB) ∧
      createOrUpdateShare c8DB 9 "mallory" docId2 w6Body "n8" =
        (.error .notFound, c8DB) ∧
      listShares c8DB "mallory" docId2 = .error .notFound) :=
  C8_owner_gate c8DB 9 "mallory" "d8" "Draft" w8Body w6Body "n8" c8Doc
    (by decide) (by decide) (by decide)

/-! ### Claim C9 — PDF generation input gate -/

/-- Claim C9: for every request to the PDF generation endpoint whose
markdownContent is empty or absent, the call fails InvalidInput (400)
before the Markdown formatter or the renderer is invoked (the effect trace
is empty); for non-empty Markdown the formatter runs on the content and the
renderer is invoked on the composed HTML.  This holds for every Markdown
formatter and style sheet. -/
theorem C9_generate_pdf_gate (mdRender : String → String) (pdfStyles : String)
    (body : PdfRequestBody) :
    ((body.markdownContent = none ∨ body.markdownContent = some "") →
        generatePdf mdRender pdfStyles body = (.error .invalidInput, [])) ∧
    (∀ content, body.markdownContent = some content → content ≠ "" →
        generatePdf mdRender pdfStyles body =
          (.ok (pdfFilename body.filename),
           [.formatMarkdown content,
            .render (composeFullHtml pdfStyles (mdRender content))])) := by
  constructor
  · rintro (h | h)
    · unfold generatePdf
      rw [h]
    · unfold generatePdf
      rw [h]
      simp
  · intro content h hne
    unfold generatePdf
    rw [h]
    simp [hne]

theorem C9_generate_pdf_gate_witness :
    (generatePdf id "css" w9Body =
      (.ok (pdfFilename w9Body.filename),
       [.formatMarkdown "# Title\n\nBody",
        .render (composeFullHtml "css" (id "# Title\n\nBody"))])) ∧
    (generatePdf id "css" { markdownContent := some "", filename := none } =
      (.error .invalidInput, [])) :=
  ⟨(C9_generate_pdf_gate id "css" w9Body).2 "# Title\n\nBody" rfl (by decide),
   (C9_generate_pdf_gate id "css"
      { markdownContent := some "", filename := none }).1 (Or.inr rfl)⟩

end ResumeForge
